import Mathlib

/-!
Shallow embedding of the FastAPI service in `main.py` (RAG Medical Query API).

The service has three endpoints:
  * `GET /` (`health_check`): diagnostics plus a liveness ping against MongoDB;
  * `POST /query` (`get_rag_response`): placeholder answer/context generation
    plus best-effort-ish logging of a record to the `rag_logs` collection;
  * `GET /debug/env` (`debug_environment`): environment echo.

External effects (the MongoDB client state, the outcome each `insert_one` or
`ping` round trip would have, clock reads, `os.environ`) are passed in as an
explicit environment; each handler is then a pure function from environment
and request to an HTTP outcome together with the sequence of persistence
attempts it made and the log lines it printed.
-/

namespace HackRag

/-- A Python exception as observed by an `except Exception as e:` block:
its class name (`type(e).__name__`), `str(e)`, and `traceback.format_exc()`. -/
structure Fault where
  ename : String
  msg : String
  tb : String
deriving DecidableEq

/-- Python truthiness of an optional string (`bool(MONGO_URI)`, `if MONGO_URI`):
`None` and the empty string are falsy. -/
def truthy : Option String → Bool
  | none => false
  | some s => !s.isEmpty

/-- Pydantic model `QueryRequest` from `main.py`: `query: str`, `top_k: int = 5`. -/
structure QueryRequest where
  query : String
  top_k : Int
deriving DecidableEq

/-- Pydantic model `QueryResponse` from `main.py`: `answer: str`,
`contexts: List[str]`. -/
structure QueryResponse where
  answer : String
  contexts : List String
deriving DecidableEq

/-- A JSON request body for `POST /query`, after JSON parsing: each declared
field is either present (with a well-typed value) or absent. -/
structure RawQueryBody where
  query : Option String
  top_k : Option Int
deriving DecidableEq

/-- Pydantic validation of the `QueryRequest` model as declared in `main.py`:
`query: str` is required (no `min_length` or other constraint, so any string
value — the empty string included — is accepted), and `top_k: int = 5` takes
the default 5 when the field is absent.  A missing required field is a
`RequestValidationError`, rendered by `validation_exception_handler` as a 422
with per-field details. -/
def QueryRequest.validate (raw : RawQueryBody) : Except (List String) QueryRequest :=
  match raw.query with
  | none => .error ["query: Field required"]
  | some q => .ok { query := q, top_k := raw.top_k.getD 5 }

/-- A document passed to `log_collection.insert_one`: either the success-path
`log_entry` dict or the error-path `error_log_data` dict of `get_rag_response`.
The `status` key distinguishes the two shapes. -/
inductive LogRecord
  | success (timestamp : Nat) (request_query : String) (request_top_k : Int)
      (response_answer : String) (response_contexts : List String)
  | error (timestamp : Nat) (request_query : String) (request_top_k : Int)
      (error_message : String) (error_traceback : String)
deriving DecidableEq

/-- The `status` field of a log document. -/
def LogRecord.status : LogRecord → String
  | .success _ _ _ _ _ => "success"
  | .error _ _ _ _ _ => "error"

/-- The HTTP outcome of `POST /query`: the 200 `QueryResponse`, the 503
`JSONResponse` built when `log_collection is None`, or the 500 `JSONResponse`
built in the `except` branch. -/
inductive QueryOutcome
  | success (resp : QueryResponse)
  | unavailable (message : String) (mongo_uri_set : Bool) (startup_error : Option String)
  | serverError (etype : String) (message : String) (tb : String)
deriving DecidableEq

/-- The HTTP status code of a `POST /query` outcome. -/
def QueryOutcome.statusCode : QueryOutcome → Nat
  | .success _ => 200
  | .unavailable _ _ _ => 503
  | .serverError _ _ _ => 500

/-- The lines `get_rag_response` prints to stdout, as structured events in
source order. -/
inductive PrintEvent
  | receivedQuery (q : String) (k : Int)
  | mongoNotAvailable
  | storingSuccessLog
  | logStored
  | criticalError (msg : String) (tb : String)
  | errorLoggedToDb
  | failedToLogError (msg : String)
deriving DecidableEq

/-- The external state a `POST /query` request runs against: whether
`app.state.log_collection` is set, the module state (`MONGO_URI`,
`startup_error`), the two potential clock reads, and the outcome each of the
two potential `insert_one` round trips would have (`none` = the insert
succeeds, `some f` = it raises `f`). -/
structure QueryEnv where
  logCollection : Bool
  mongoUri : Option String
  startupError : Option String
  now : Nat
  now2 : Nat
  firstInsert : Option Fault
  secondInsert : Option Fault
deriving DecidableEq

/-- Everything observable about one run of `get_rag_response`: the HTTP
outcome, the documents passed to `insert_one` in order (attempted persistence,
whether or not the insert then raised), and the printed log lines. -/
structure QueryRun where
  outcome : QueryOutcome
  attempts : List LogRecord
  prints : List PrintEvent
deriving DecidableEq

/-- The `placeholder_contexts` list built in `get_rag_response`
(f-strings rendered as concatenation; Python `str(int)` is `toString`). -/
def placeholder_contexts (req : QueryRequest) : List String :=
  ["Placeholder context 1 for query: \x27" ++ req.query ++ "\x27",
   "Placeholder context 2 (top_k was " ++ toString req.top_k ++ ")"]

/-- The `placeholder_answer` string built in `get_rag_response`. -/
def placeholder_answer (req : QueryRequest) : String :=
  "This is a placeholder answer for \x27" ++ req.query ++ "\x27."

/-- Handler of `POST /query` (`get_rag_response` in `main.py`).

If `log_collection is None` it returns the 503 `JSONResponse` immediately.
Otherwise it enters the `try` block: builds the placeholder response, builds
the success `log_entry`, and awaits `insert_one(log_entry)`.  The only
operation in the `try` block that can raise is that insert (generation is pure
string formatting); if it raises `e`, the `except` branch builds
`error_log_data` from `str(e)` and `traceback.format_exc()`, attempts a second
insert whose own failure is caught and only printed, and returns the 500
`JSONResponse` describing `e`. -/
def get_rag_response (env : QueryEnv) (req : QueryRequest) : QueryRun :=
  let p0 := PrintEvent.receivedQuery req.query req.top_k
  if env.logCollection = false then
    { outcome := .unavailable "MongoDB not connected. Cannot log requests."
        (truthy env.mongoUri) env.startupError
      attempts := []
      prints := [p0, .mongoNotAvailable] }
  else
    let response : QueryResponse :=
      { answer := placeholder_answer req, contexts := placeholder_contexts req }
    let log_entry : LogRecord :=
      .success env.now req.query req.top_k response.answer response.contexts
    match env.firstInsert with
    | none =>
        { outcome := .success response
          attempts := [log_entry]
          prints := [p0, .storingSuccessLog, .logStored] }
    | some e =>
        let error_log_data : LogRecord :=
          .error env.now2 req.query req.top_k e.msg e.tb
        let logPrints : List PrintEvent :=
          match env.secondInsert with
          | none => [.errorLoggedToDb]
          | some log_e => [.failedToLogError log_e.msg]
        { outcome := .serverError e.ename e.msg e.tb
          attempts := [log_entry, error_log_data]
          prints := [p0, .storingSuccessLog, .criticalError e.msg e.tb] ++ logPrints }

/-- The external state a `GET /` health check runs against: the module state,
which of `app.state.client` / `app.state.db` / `app.state.log_collection` are
set, the clock read, and the outcome the `ping` round trip would have
(`none` = succeeds, `some f` = raises `f`). -/
structure HealthEnv where
  mongoUri : Option String
  startupError : Option String
  client : Bool
  db : Bool
  logCollection : Bool
  nowIso : String
  ping : Option Fault
deriving DecidableEq

/-- The `diagnostics` dict returned by `health_check`; keys that are only
added on some paths are `Option` (`none` = key absent). -/
structure HealthDiagnostics where
  status : String
  timestamp : String
  mongo_uri_set : Bool
  mongo_uri_preview : Option String
  client_init : Bool
  db_init : Bool
  collection_init : Bool
  startup_error : Option String
  error : Option String
  message : Option String
  traceback : Option String
deriving DecidableEq

/-- An HTTP response from `health_check`: status code plus diagnostics body. -/
structure HealthResponse where
  statusCode : Nat
  body : HealthDiagnostics
deriving DecidableEq

/-- Handler of `GET /` (`health_check` in `main.py`), as the `Except`-valued
function a raising handler would denote: `.error f` would mean the handler let
exception `f` propagate to the framework.  The code wraps the only fallible
operation (the ping) in `try`/`except Exception`, so every branch produces a
response: 503 when `client is None`, 200 when the ping succeeds, 503 with the
fault's message and traceback in the body when the ping raises. -/
def health_check (env : HealthEnv) : Except Fault HealthResponse :=
  let diagnostics : HealthDiagnostics :=
    { status := "unknown"
      timestamp := env.nowIso
      mongo_uri_set := truthy env.mongoUri
      mongo_uri_preview :=
        match env.mongoUri with
        | some u => if !u.isEmpty then some (u.take 30 ++ "...") else none
        | none => none
      client_init := env.client
      db_init := env.db
      collection_init := env.logCollection
      startup_error := env.startupError
      error := none
      message := none
      traceback := none }
  if env.client = false then
    .ok { statusCode := 503
          body := { diagnostics with
            status := "error", error := some "MongoDB client not initialized" } }
  else
    match env.ping with
    | none =>
        .ok { statusCode := 200
              body := { diagnostics with
                status := "ok", message := some "All systems operational" } }
    | some e =>
        .ok { statusCode := 503
              body := { diagnostics with
                status := "error", error := some e.msg, traceback := some e.tb } }

/-- The external state `GET /debug/env` reads: `MONGO_URI`, `os.sys.version`,
and `list(os.environ.keys())`. -/
structure DebugEnv where
  mongoUri : Option String
  pythonVersion : String
  environKeys : List String
deriving DecidableEq

/-- The body returned by `debug_environment`. -/
structure DebugResponse where
  mongo_uri_set : Bool
  mongo_uri_length : Nat
  mongo_uri_preview : Option String
  python_version : String
  environment_vars : List String
deriving DecidableEq

/-- Handler of `GET /debug/env` (`debug_environment` in `main.py`). -/
def debug_environment (env : DebugEnv) : DebugResponse :=
  { mongo_uri_set := truthy env.mongoUri
    mongo_uri_length :=
      match env.mongoUri with
      | some u => if !u.isEmpty then u.length else 0
      | none => 0
    mongo_uri_preview :=
      match env.mongoUri with
      | some u => if !u.isEmpty && decide (u.length > 50)
                  then some (u.take 50 ++ "...") else some u
      | none => none
    python_version := env.pythonVersion
    environment_vars := env.environKeys }

/-! ## Helper lemmas -/

/-- A run of `POST /query` produces the 200 outcome exactly when the log
collection is available and the success-record insert succeeds, and the
response is then the placeholder response built from the request alone. -/
theorem get_rag_response_success_iff (env : QueryEnv) (req : QueryRequest)
    (resp : QueryResponse) :
    (get_rag_response env req).outcome = .success resp ↔
      (env.logCollection = true ∧ env.firstInsert = none ∧
        resp = { answer := placeholder_answer req, contexts := placeholder_contexts req }) := by
  cases hl : env.logCollection <;> cases hf : env.firstInsert <;>
    simp [get_rag_response, hl, hf, eq_comm]

/-! ## Claim theorems -/

/-- C3: when no log collection is available, `POST /query` returns the 503
service-unavailable response immediately: the whole run is the fixed
unavailable outcome, with zero persistence attempts and no generated
response. -/
theorem query_unavailable_immediate_503 (env : QueryEnv) (req : QueryRequest)
    (h : env.logCollection = false) :
    get_rag_response env req =
      { outcome := .unavailable "MongoDB not connected. Cannot log requests."
          (truthy env.mongoUri) env.startupError
        attempts := []
        prints := [.receivedQuery req.query req.top_k, .mongoNotAvailable] } ∧
    (get_rag_response env req).outcome.statusCode = 503 ∧
    ∀ resp : QueryResponse, (get_rag_response env req).outcome ≠ .success resp := by
  refine ⟨by simp [get_rag_response, h], by simp [get_rag_response, h, QueryOutcome.statusCode],
    fun resp => by simp [get_rag_response, h]⟩

/-- C3 witness: a concrete unavailable environment. -/
theorem query_unavailable_immediate_503_witness :
    get_rag_response ⟨false, none, some "FATAL ERROR", 7, 8, none, none⟩ ⟨"q", 5⟩ =
      { outcome := .unavailable "MongoDB not connected. Cannot log requests." false
          (some "FATAL ERROR")
        attempts := []
        prints := [.receivedQuery "q" 5, .mongoNotAvailable] } ∧
    (get_rag_response ⟨false, none, some "FATAL ERROR", 7, 8, none, none⟩
        ⟨"q", 5⟩).outcome.statusCode = 503 ∧
    ∀ resp : QueryResponse,
      (get_rag_response ⟨false, none, some "FATAL ERROR", 7, 8, none, none⟩
          ⟨"q", 5⟩).outcome ≠ .success resp :=
  query_unavailable_immediate_503 ⟨false, none, some "FATAL ERROR", 7, 8, none, none⟩
    ⟨"q", 5⟩ rfl

/-- C1 counterexample: with the log collection available and the success-record
insert raising, `POST /query` returns a 500, not the 200 `QueryResponse` — the
success-record persistence failure does change the HTTP outcome. -/
theorem query_insert_failure_not_200 :
    (get_rag_response ⟨true, some "mongodb://u", none, 7, 8,
        some ⟨"AutoReconnect", "conn reset", "Traceback..."⟩, none⟩
      ⟨"What are the symptoms of diabetes?", 3⟩).outcome.statusCode = 500 ∧
    (get_rag_response ⟨true, some "mongodb://u", none, 7, 8,
        some ⟨"AutoReconnect", "conn reset", "Traceback..."⟩, none⟩
      ⟨"What are the symptoms of diabetes?", 3⟩).outcome.statusCode ≠ 200 := by
  constructor <;> decide

/-- C1 amended: if the success-record insert raises, `POST /query` returns the
500 response describing that insert fault (after switching to the error path),
for every environment with the log collection available. -/
theorem query_insert_failure_returns_500 (env : QueryEnv) (req : QueryRequest)
    (e : Fault) (hl : env.logCollection = true) (hf : env.firstInsert = some e) :
    (get_rag_response env req).outcome = .serverError e.ename e.msg e.tb ∧
    (get_rag_response env req).outcome.statusCode = 500 := by
  simp [get_rag_response, hl, hf, QueryOutcome.statusCode]

/-- C1 amended witness: the theorem applied at a concrete environment. -/
theorem query_insert_failure_returns_500_witness :
    (get_rag_response ⟨true, some "mongodb://u", none, 1, 2,
        some ⟨"ServerSelectionTimeoutError", "timed out", "tb"⟩, none⟩
      ⟨"q", 5⟩).outcome = .serverError "ServerSelectionTimeoutError" "timed out" "tb" ∧
    (get_rag_response ⟨true, some "mongodb://u", none, 1, 2,
        some ⟨"ServerSelectionTimeoutError", "timed out", "tb"⟩, none⟩
      ⟨"q", 5⟩).outcome.statusCode = 500 :=
  query_insert_failure_returns_500
    ⟨true, some "mongodb://u", none, 1, 2,
      some ⟨"ServerSelectionTimeoutError", "timed out", "tb"⟩, none⟩
    ⟨"q", 5⟩ ⟨"ServerSelectionTimeoutError", "timed out", "tb"⟩ rfl rfl

/-- C10: on the fault path (the success-record insert raised `e`), a failure of
the error-record insert is swallowed: the endpoint still returns the 500
describing the original fault `e`, and both the outcome and the sequence of
attempted records are identical to the run in which the error-record insert
succeeds. -/
theorem query_error_log_failure_swallowed (env : QueryEnv) (req : QueryRequest)
    (e le : Fault) (hl : env.logCollection = true) (hf : env.firstInsert = some e)
    (hs : env.secondInsert = some le) :
    (get_rag_response env req).outcome = .serverError e.ename e.msg e.tb ∧
    (get_rag_response env req).outcome =
      (get_rag_response { env with secondInsert := none } req).outcome ∧
    (get_rag_response env req).attempts =
      (get_rag_response { env with secondInsert := none } req).attempts := by
  refine ⟨?_, ?_, ?_⟩ <;> simp [get_rag_response, hl, hf, hs]

/-- C10 witness: the theorem applied at a concrete environment where both
inserts raise. -/
theorem query_error_log_failure_swallowed_witness :
    (get_rag_response ⟨true, some "mongodb://u", none, 1, 2,
        some ⟨"OperationFailure", "auth failed", "tb1"⟩,
        some ⟨"OperationFailure", "auth failed again", "tb2"⟩⟩
      ⟨"q", 5⟩).outcome = .serverError "OperationFailure" "auth failed" "tb1" ∧
    (get_rag_response ⟨true, some "mongodb://u", none, 1, 2,
        some ⟨"OperationFailure", "auth failed", "tb1"⟩,
        some ⟨"OperationFailure", "auth failed again", "tb2"⟩⟩
      ⟨"q", 5⟩).outcome =
      (get_rag_response ⟨true, some "mongodb://u", none, 1, 2,
          some ⟨"OperationFailure", "auth failed", "tb1"⟩, none⟩ ⟨"q", 5⟩).outcome ∧
    (get_rag_response ⟨true, some "mongodb://u", none, 1, 2,
        some ⟨"OperationFailure", "auth failed", "tb1"⟩,
        some ⟨"OperationFailure", "auth failed again", "tb2"⟩⟩
      ⟨"q", 5⟩).attempts =
      (get_rag_response ⟨true, some "mongodb://u", none, 1, 2,
          some ⟨"OperationFailure", "auth failed", "tb1"⟩, none⟩ ⟨"q", 5⟩).attempts :=
  query_error_log_failure_swallowed
    ⟨true, some "mongodb://u", none, 1, 2,
      some ⟨"OperationFailure", "auth failed", "tb1"⟩,
      some ⟨"OperationFailure", "auth failed again", "tb2"⟩⟩
    ⟨"q", 5⟩ ⟨"OperationFailure", "auth failed", "tb1"⟩
    ⟨"OperationFailure", "auth failed again", "tb2"⟩ rfl rfl rfl

/-- C2 counterexample: a request on which `POST /query` attempts two record
persistences, not exactly one — and the first attempted record has status
`"success"` while the HTTP outcome is 500, so the attempted record's status
does not match the outcome class either. -/
theorem query_not_exactly_one_attempt :
    (get_rag_response ⟨true, some "mongodb://u", none, 7, 8,
        some ⟨"AutoReconnect", "conn reset", "tb"⟩, none⟩
      ⟨"q", 5⟩).attempts.length = 2 ∧
    ((get_rag_response ⟨true, some "mongodb://u", none, 7, 8,
        some ⟨"AutoReconnect", "conn reset", "tb"⟩, none⟩
      ⟨"q", 5⟩).attempts.head?.map LogRecord.status = some "success") ∧
    (get_rag_response ⟨true, some "mongodb://u", none, 7, 8,
        some ⟨"AutoReconnect", "conn reset", "tb"⟩, none⟩
      ⟨"q", 5⟩).outcome.statusCode = 500 := by
  refine ⟨?_, ?_, ?_⟩ <;> decide

/-- C2 amended: when the log collection is unavailable, zero persistences are
attempted (outcome 503); when it is available, at least one is attempted —
exactly one record of status `"success"` when the insert succeeds (outcome
200), and two records (the success record then an error record) when it raises
(outcome 500) — and in every case the status of the last attempted record
matches the HTTP outcome class (`"success"` iff 2xx). -/
theorem query_log_attempt_spec (env : QueryEnv) (req : QueryRequest) :
    (env.logCollection = false →
      (get_rag_response env req).attempts = [] ∧
      (get_rag_response env req).outcome.statusCode = 503) ∧
    (env.logCollection = true →
      (get_rag_response env req).attempts ≠ [] ∧
      (env.firstInsert = none →
        (∃ rec, (get_rag_response env req).attempts = [rec] ∧ rec.status = "success") ∧
        (get_rag_response env req).outcome.statusCode = 200) ∧
      (∀ e, env.firstInsert = some e →
        (∃ r1 r2, (get_rag_response env req).attempts = [r1, r2] ∧
          r1.status = "success" ∧ r2.status = "error") ∧
        (get_rag_response env req).outcome.statusCode = 500)) ∧
    (∀ rec, (get_rag_response env req).attempts.getLast? = some rec →
      (rec.status = "success" ↔ (get_rag_response env req).outcome.statusCode = 200)) := by
  cases hl : env.logCollection <;> cases hf : env.firstInsert <;>
    simp [get_rag_response, hl, hf, QueryOutcome.statusCode, LogRecord.status]
  exact ⟨_, _, ⟨rfl, rfl⟩, rfl, rfl⟩

/-- C2 amended witness: the theorem applied at a concrete available
environment whose insert succeeds. -/
theorem query_log_attempt_spec_witness :
    ((⟨true, some "mongodb://u", none, 7, 8, none, none⟩ : QueryEnv).logCollection = false →
      (get_rag_response ⟨true, some "mongodb://u", none, 7, 8, none, none⟩ ⟨"q", 5⟩).attempts = [] ∧
      (get_rag_response ⟨true, some "mongodb://u", none, 7, 8, none, none⟩
          ⟨"q", 5⟩).outcome.statusCode = 503) ∧
    ((⟨true, some "mongodb://u", none, 7, 8, none, none⟩ : QueryEnv).logCollection = true →
      (get_rag_response ⟨true, some "mongodb://u", none, 7, 8, none, none⟩ ⟨"q", 5⟩).attempts ≠ [] ∧
      ((⟨true, some "mongodb://u", none, 7, 8, none, none⟩ : QueryEnv).firstInsert = none →
        (∃ rec, (get_rag_response ⟨true, some "mongodb://u", none, 7, 8, none, none⟩
            ⟨"q", 5⟩).attempts = [rec] ∧ rec.status = "success") ∧
        (get_rag_response ⟨true, some "mongodb://u", none, 7, 8, none, none⟩
            ⟨"q", 5⟩).outcome.statusCode = 200) ∧
      (∀ e, (⟨true, some "mongodb://u", none, 7, 8, none, none⟩ : QueryEnv).firstInsert = some e →
        (∃ r1 r2, (get_rag_response ⟨true, some "mongodb://u", none, 7, 8, none, none⟩
            ⟨"q", 5⟩).attempts = [r1, r2] ∧
          r1.status = "success" ∧ r2.status = "error") ∧
        (get_rag_response ⟨true, some "mongodb://u", none, 7, 8, none, none⟩
            ⟨"q", 5⟩).outcome.statusCode = 500)) ∧
    (∀ rec, (get_rag_response ⟨true, some "mongodb://u", none, 7, 8, none, none⟩
        ⟨"q", 5⟩).attempts.getLast? = some rec →
      (rec.status = "success" ↔
        (get_rag_response ⟨true, some "mongodb://u", none, 7, 8, none, none⟩
            ⟨"q", 5⟩).outcome.statusCode = 200)) :=
  query_log_attempt_spec ⟨true, some "mongodb://u", none, 7, 8, none, none⟩ ⟨"q", 5⟩

/-- C4: on the success path of `POST /query`, the returned response has
non-empty contexts, its answer contains the literal input query as a
substring, and at least one context contains the rendering of the request's
`top_k`. -/
theorem query_success_response_shape (env : QueryEnv) (req : QueryRequest)
    (resp : QueryResponse)
    (h : (get_rag_response env req).outcome = .success resp) :
    resp.contexts ≠ [] ∧
    (∃ a b, resp.answer = a ++ req.query ++ b) ∧
    (∃ c ∈ resp.contexts, ∃ a b, c = a ++ toString req.top_k ++ b) := by
  obtain ⟨-, -, hr⟩ := (get_rag_response_success_iff env req resp).mp h
  subst hr
  refine ⟨by simp [placeholder_contexts],
    ⟨"This is a placeholder answer for \x27", "\x27.", rfl⟩,
    ⟨"Placeholder context 2 (top_k was " ++ toString req.top_k ++ ")",
      by simp [placeholder_contexts], "Placeholder context 2 (top_k was ", ")", rfl⟩⟩

/-- C4 witness: the spec's concrete scenario, query
"What are the symptoms of diabetes?" with top_k 3, on a working environment. -/
theorem query_success_response_shape_witness :
    ({ answer := placeholder_answer ⟨"What are the symptoms of diabetes?", 3⟩
       contexts := placeholder_contexts ⟨"What are the symptoms of diabetes?", 3⟩ } :
        QueryResponse).contexts ≠ [] ∧
    (∃ a b, ({ answer := placeholder_answer ⟨"What are the symptoms of diabetes?", 3⟩
               contexts := placeholder_contexts ⟨"What are the symptoms of diabetes?", 3⟩ } :
        QueryResponse).answer = a ++ "What are the symptoms of diabetes?" ++ b) ∧
    (∃ c ∈ ({ answer := placeholder_answer ⟨"What are the symptoms of diabetes?", 3⟩
              contexts := placeholder_contexts ⟨"What are the symptoms of diabetes?", 3⟩ } :
        QueryResponse).contexts, ∃ a b, c = a ++ toString (3 : Int) ++ b) :=
  query_success_response_shape ⟨true, some "mongodb://u", none, 1, 2, none, none⟩
    ⟨"What are the symptoms of diabetes?", 3⟩ _ rfl

/-- C7: placeholder generation is deterministic in the request body — any two
runs on structurally identical requests that reach the 200 outcome return
structurally identical responses (answer and contexts), whatever their
environments. -/
theorem query_generation_deterministic (env1 env2 : QueryEnv) (req : QueryRequest)
    (r1 r2 : QueryResponse)
    (h1 : (get_rag_response env1 req).outcome = .success r1)
    (h2 : (get_rag_response env2 req).outcome = .success r2) :
    r1 = r2 := by
  obtain ⟨-, -, e1⟩ := (get_rag_response_success_iff env1 req r1).mp h1
  obtain ⟨-, -, e2⟩ := (get_rag_response_success_iff env2 req r2).mp h2
  rw [e1, e2]

/-- C7 witness: two runs of the same request under different environments
return the same response. -/
theorem query_generation_deterministic_witness :
    ({ answer := placeholder_answer ⟨"q", 5⟩
       contexts := placeholder_contexts ⟨"q", 5⟩ } : QueryResponse) =
    { answer := placeholder_answer ⟨"q", 5⟩
      contexts := placeholder_contexts ⟨"q", 5⟩ } :=
  query_generation_deterministic
    ⟨true, some "mongodb://u", none, 1, 2, none, none⟩
    ⟨true, some "mongodb://other", some "old error", 9, 9, none, some ⟨"E", "m", "t"⟩⟩
    ⟨"q", 5⟩ _ _ rfl rfl

/-- C5: the health check returns 503 exactly when no client handle exists or
the liveness ping would fail, and 200 exactly otherwise. -/
theorem health_status_iff (env : HealthEnv) :
    ∃ r, health_check env = .ok r ∧
      (r.statusCode = 503 ↔ (env.client = false ∨ env.ping.isSome = true)) ∧
      (r.statusCode = 200 ↔ (env.client = true ∧ env.ping = none)) := by
  cases hc : env.client <;> cases hp : env.ping <;>
    simp [health_check, hc, hp]

/-- C5 witness: the theorem applied at a concrete healthy environment. -/
theorem health_status_iff_witness :
    ∃ r, health_check ⟨some "mongodb://u", none, true, true, true, "2026-10-12T00:00:00", none⟩ = .ok r ∧
      (r.statusCode = 503 ↔
        ((⟨some "mongodb://u", none, true, true, true, "2026-10-12T00:00:00", none⟩ :
            HealthEnv).client = false ∨
         (⟨some "mongodb://u", none, true, true, true, "2026-10-12T00:00:00", none⟩ :
            HealthEnv).ping.isSome = true)) ∧
      (r.statusCode = 200 ↔
        ((⟨some "mongodb://u", none, true, true, true, "2026-10-12T00:00:00", none⟩ :
            HealthEnv).client = true ∧
         (⟨some "mongodb://u", none, true, true, true, "2026-10-12T00:00:00", none⟩ :
            HealthEnv).ping = none)) :=
  health_status_iff ⟨some "mongodb://u", none, true, true, true, "2026-10-12T00:00:00", none⟩

/-- C8: the health check never lets a fault propagate — for every environment
it produces an `.ok` response, and when the ping would raise a fault the
response is the 503 whose body carries that fault's message and traceback as
structured diagnostics. -/
theorem health_never_raises (env : HealthEnv) :
    ∃ r, health_check env = .ok r ∧
      (∀ f, env.client = true → env.ping = some f →
        r.statusCode = 503 ∧ r.body.error = some f.msg ∧ r.body.traceback = some f.tb) := by
  cases hc : env.client <;> cases hp : env.ping <;>
    simp [health_check, hc, hp]

/-- C8 witness: the theorem applied at a concrete environment whose ping
raises. -/
theorem health_never_raises_witness :
    ∃ r, health_check ⟨some "mongodb://u", none, true, true, true, "t0",
        some ⟨"ServerSelectionTimeoutError", "No servers found", "tbX"⟩⟩ = .ok r ∧
      (∀ f, (⟨some "mongodb://u", none, true, true, true, "t0",
          some ⟨"ServerSelectionTimeoutError", "No servers found", "tbX"⟩⟩ :
            HealthEnv).client = true →
        (⟨some "mongodb://u", none, true, true, true, "t0",
          some ⟨"ServerSelectionTimeoutError", "No servers found", "tbX"⟩⟩ :
            HealthEnv).ping = some f →
        r.statusCode = 503 ∧ r.body.error = some f.msg ∧ r.body.traceback = some f.tb) :=
  health_never_raises ⟨some "mongodb://u", none, true, true, true, "t0",
    some ⟨"ServerSelectionTimeoutError", "No servers found", "tbX"⟩⟩

/-- C6 counterexample: a body whose `query` field is present but empty passes
validation (pydantic `query: str` has no non-empty constraint) and is then
processed normally — `POST /query` returns 200 for it — rather than being
rejected as a validation error. -/
theorem validate_accepts_empty_query :
    QueryRequest.validate ⟨some "", none⟩ = .ok ⟨"", 5⟩ ∧
    (get_rag_response ⟨true, some "mongodb://u", none, 1, 2, none, none⟩
      ⟨"", 5⟩).outcome.statusCode = 200 := by
  exact ⟨rfl, by decide⟩

/-- C6 amended: `query` is a required string — a body without it is rejected
with a per-field validation error, while any present string value (the empty
string included) is accepted — and `top_k` is an integer defaulting to 5 when
the field is omitted. -/
theorem validate_spec (raw : RawQueryBody) :
    (raw.query = none → QueryRequest.validate raw = .error ["query: Field required"]) ∧
    (∀ q, raw.query = some q →
      QueryRequest.validate raw = .ok ⟨q, raw.top_k.getD 5⟩) ∧
    (∀ q, raw.query = some q → raw.top_k = none →
      QueryRequest.validate raw = .ok ⟨q, 5⟩) := by
  cases hq : raw.query <;> simp [QueryRequest.validate, hq]
  intro h
  simp [h]

/-- C6 amended witness: the theorem applied at a body with `query` present and
`top_k` omitted. -/
theorem validate_spec_witness :
    ((⟨some "hello", none⟩ : RawQueryBody).query = none →
      QueryRequest.validate ⟨some "hello", none⟩ = .error ["query: Field required"]) ∧
    (∀ q, (⟨some "hello", none⟩ : RawQueryBody).query = some q →
      QueryRequest.validate ⟨some "hello", none⟩ =
        .ok ⟨q, (⟨some "hello", none⟩ : RawQueryBody).top_k.getD 5⟩) ∧
    (∀ q, (⟨some "hello", none⟩ : RawQueryBody).query = some q →
      (⟨some "hello", none⟩ : RawQueryBody).top_k = none →
      QueryRequest.validate ⟨some "hello", none⟩ = .ok ⟨q, 5⟩) :=
  validate_spec ⟨some "hello", none⟩

/-- C9 counterexample: the `GET /debug/env` response is not a function of the
connection-string configuration alone — two environments with the same
`MONGO_URI` but different `os.environ` key sets produce different responses,
and the response carries the full environment-variable name list, so the
endpoint returns more than the configured flag and the redacted preview. -/
theorem debug_env_exposes_more :
    debug_environment ⟨some "mongodb://u", "3.11.0", ["PATH"]⟩ ≠
      debug_environment ⟨some "mongodb://u", "3.11.0", ["PATH", "SECRET_TOKEN"]⟩ ∧
    (debug_environment ⟨some "mongodb://u", "3.11.0",
        ["PATH", "SECRET_TOKEN"]⟩).environment_vars = ["PATH", "SECRET_TOKEN"] := by
  constructor <;> decide

/-- C9 amended: `GET /debug/env` returns the configured flag and a redacted
preview of the connection string (first 50 characters plus an ellipsis when it
is longer than 50, the string itself otherwise, null when unset) — but also
the connection-string length, the Python version, and the names of all
environment variables. -/
theorem debug_env_spec (env : DebugEnv) :
    (debug_environment env).mongo_uri_set = truthy env.mongoUri ∧
    (env.mongoUri = none → (debug_environment env).mongo_uri_preview = none) ∧
    (∀ u, env.mongoUri = some u → ¬u.isEmpty → u.length > 50 →
      (debug_environment env).mongo_uri_preview = some (u.take 50 ++ "...")) ∧
    (∀ u, env.mongoUri = some u → ¬u.isEmpty → ¬(u.length > 50) →
      (debug_environment env).mongo_uri_preview = some u) ∧
    (debug_environment env).python_version = env.pythonVersion ∧
    (debug_environment env).environment_vars = env.environKeys := by
  refine ⟨rfl, ?_, ?_, ?_, rfl, rfl⟩
  · intro h; simp [debug_environment, h]
  · intro u hu hne hlen
    have he : u.isEmpty = false := by
      cases h' : u.isEmpty
      · rfl
      · exact absurd h' hne
    simp [debug_environment, hu, he, hlen]
  · intro u hu hne hlen
    have he : u.isEmpty = false := by
      cases h' : u.isEmpty
      · rfl
      · exact absurd h' hne
    simp [debug_environment, hu, he, hlen]

/-- C9 amended witness: the theorem applied at a concrete environment with a
long connection string. -/
theorem debug_env_spec_witness :
    (debug_environment ⟨some (String.mk (List.replicate 60 'a')), "3.11.0",
        ["PATH"]⟩).mongo_uri_set = truthy (some (String.mk (List.replicate 60 'a'))) ∧
    ((⟨some (String.mk (List.replicate 60 'a')), "3.11.0", ["PATH"]⟩ :
        DebugEnv).mongoUri = none →
      (debug_environment ⟨some (String.mk (List.replicate 60 'a')), "3.11.0",
          ["PATH"]⟩).mongo_uri_preview = none) ∧
    (∀ u, (⟨some (String.mk (List.replicate 60 'a')), "3.11.0", ["PATH"]⟩ :
        DebugEnv).mongoUri = some u → ¬u.isEmpty → u.length > 50 →
      (debug_environment ⟨some (String.mk (List.replicate 60 'a')), "3.11.0",
          ["PATH"]⟩).mongo_uri_preview = some (u.take 50 ++ "...")) ∧
    (∀ u, (⟨some (String.mk (List.replicate 60 'a')), "3.11.0", ["PATH"]⟩ :
        DebugEnv).mongoUri = some u → ¬u.isEmpty → ¬(u.length > 50) →
      (debug_environment ⟨some (String.mk (List.replicate 60 'a')), "3.11.0",
          ["PATH"]⟩).mongo_uri_preview = some u) ∧
    (debug_environment ⟨some (String.mk (List.replicate 60 'a')), "3.11.0",
        ["PATH"]⟩).python_version = "3.11.0" ∧
    (debug_environment ⟨some (String.mk (List.replicate 60 'a')), "3.11.0",
        ["PATH"]⟩).environment_vars = ["PATH"] :=
  debug_env_spec ⟨some (String.mk (List.replicate 60 'a')), "3.11.0", ["PATH"]⟩

end HackRag
